import Mathlib

/-!
Verification of the SmartThinQ climate platform (`climate.py`).

Python dictionaries are modelled as insertion-ordered association lists
(`List (κ × β)`): `dinsert` is `d[k] = v` (update in place when the key is
present, append otherwise), `dlookup` is `d.get(k)` / `d[k]`, and
`dictOfPairs` is a dict comprehension over a sequence of key/value pairs.
-/

namespace SmartThinQ

/-- Python dict update `d[k] = v` on an insertion-ordered dict: replace the value in place when
the key is already present, append otherwise. -/
def dinsert {κ β : Type} [DecidableEq κ] (l : List (κ × β)) (k : κ) (v : β) :
    List (κ × β) :=
  if l.any (fun p => p.1 = k) then
    l.map (fun p => if p.1 = k then (k, v) else p)
  else l ++ [(k, v)]

/-- Python dict read `d.get(k)`: the value of the first entry with key `k`, if any. -/
def dlookup {κ β : Type} [DecidableEq κ] (l : List (κ × β)) (k : κ) : Option β :=
  match l with
  | [] => none
  | p :: rest => if p.1 = k then some p.2 else dlookup rest k

/-- Dict comprehension: build a dict from a pair sequence, later entries
overwriting earlier ones with the same key. -/
def dictOfPairs {κ β : Type} [DecidableEq κ] (l : List (κ × β)) : List (κ × β) :=
  l.foldl (fun acc p => dinsert acc p.1 p.2) []

theorem mem_of_mem_dinsert {κ β : Type} [DecidableEq κ]
    {l : List (κ × β)} {k : κ} {v : β} {p : κ × β}
    (h : p ∈ dinsert l k v) : p ∈ l ∨ p = (k, v) := by
  unfold dinsert at h
  split at h
  · rcases List.mem_map.mp h with ⟨q, hq, hpq⟩
    by_cases hk : q.1 = k
    · right; simp only [hk, if_pos] at hpq; exact hpq.symm
    · left
      simp only [hk, if_neg, ite_false] at hpq
      exact hpq ▸ hq
  · rcases List.mem_append.mp h with h' | h'
    · exact Or.inl h'
    · right; simpa using h'

theorem mem_of_mem_foldl_dinsert {κ β : Type} [DecidableEq κ]
    (l : List (κ × β)) :
    ∀ (acc : List (κ × β)) (p : κ × β),
      p ∈ l.foldl (fun a q => dinsert a q.1 q.2) acc → p ∈ acc ∨ p ∈ l := by
  induction l with
  | nil => intro acc p h; exact Or.inl h
  | cons q l ih =>
      intro acc p h
      rcases ih (dinsert acc q.1 q.2) p h with h' | h'
      · rcases mem_of_mem_dinsert h' with h'' | h''
        · exact Or.inl h''
        · exact Or.inr (by simp [h''])
      · exact Or.inr (List.mem_cons_of_mem _ h')

theorem mem_of_mem_dictOfPairs {κ β : Type} [DecidableEq κ]
    {l : List (κ × β)} {p : κ × β} (h : p ∈ dictOfPairs l) : p ∈ l := by
  rcases mem_of_mem_foldl_dinsert l [] p h with h' | h'
  · cases h'
  · exact h'

theorem mem_of_dlookup_eq_some {κ β : Type} [DecidableEq κ]
    {l : List (κ × β)} {k : κ} {v : β} (h : dlookup l k = some v) :
    (k, v) ∈ l := by
  induction l with
  | nil => simp [dlookup] at h
  | cons p rest ih =>
      unfold dlookup at h
      split at h
      · rename_i hk
        cases h
        obtain ⟨a, b⟩ := p
        simp only at hk
        subst hk
        exact List.mem_cons_self _ _
      · exact List.mem_cons_of_mem _ (ih h)

theorem dlookup_eq_some_of_mem_nodup {κ β : Type} [DecidableEq κ]
    {l : List (κ × β)} {k : κ} {v : β}
    (hmem : (k, v) ∈ l) (hnd : (l.map Prod.fst).Nodup) :
    dlookup l k = some v := by
  induction l with
  | nil => cases hmem
  | cons p rest ih =>
      simp only [List.map_cons, List.nodup_cons] at hnd
      rcases List.mem_cons.mp hmem with h | h
      · subst h; simp [dlookup]
      · have hk : p.1 ≠ k := by
          intro he
          exact hnd.1 (he ▸ List.mem_map.mpr ⟨(k, v), h, rfl⟩)
        simp [dlookup, hk, ih h hnd.2]

/-- Home Assistant `HVACMode` (string enum); `value` gives the enum's string
value, used when the mode is interpolated into an error message. -/
inductive HVACMode : Type
  | off
  | auto
  | heat
  | dry
  | cool
  | fan_only
  | heat_cool
  deriving DecidableEq, Repr

/-- The string value of a `HVACMode` member (Python `StrEnum` value). -/
def HVACMode.value : HVACMode → String
  | .off => "off"
  | .auto => "auto"
  | .heat => "heat"
  | .dry => "dry"
  | .cool => "cool"
  | .fan_only => "fan_only"
  | .heat_cool => "heat_cool"

/-- Home Assistant constant `PRESET_NONE`. -/
def PRESET_NONE : String := "none"

/-- Home Assistant constant `PRESET_ECO`. -/
def PRESET_ECO : String := "eco"

/-- Constant `HVAC_MODE_NONE = "--"`, the sentinel vendor code. -/
def HVAC_MODE_NONE : String := "--"

/-- Table `HVAC_MODE_LOOKUP`: global vendor operating-mode code → standard HVAC
mode table (keys are `ACMode` member names). -/
def HVAC_MODE_LOOKUP : List (String × HVACMode) :=
  [("AI", .auto),
   ("HEAT", .heat),
   ("DRY", .dry),
   ("COOL", .cool),
   ("AIRCLEAN", .fan_only),
   ("ACO", .heat_cool)]

/-- Table `PRESET_MODE_LOOKUP`: global vendor code → (preset label, associated
HVAC mode) table. -/
def PRESET_MODE_LOOKUP : List (String × (String × HVACMode)) :=
  [("ENERGY_SAVING", (PRESET_ECO, .cool)),
   ("ENERGY_SAVER", (PRESET_ECO, .cool))]

/-- Static capabilities of an `AirConditionerDevice` used by the adapter. -/
structure AirConditionerDevice : Type where
  op_modes : List String
  fan_speeds : List String
  vertical_swing_modes : List String
  horizontal_swing_modes : List String
  deriving DecidableEq, Repr

/-- The live device snapshot fields the adapter reads (`self._api.state`). -/
structure ACState : Type where
  is_on : Bool
  operation_mode : Option String
  vertical_swing_mode : Option String
  horizontal_swing_mode : Option String
  deriving DecidableEq, Repr

/-- The mutable attributes of an `LGEACClimate` entity relevant here.  The
memoized `_hvac_mode_lookup` / `_preset_mode_lookup` caches are not carried:
the device capability set is fixed for the adapter's lifetime, so the cached
tables always equal the pure recomputation from `device.op_modes`. -/
structure LGEACClimate : Type where
  device : AirConditionerDevice
  use_h_mode : Bool
  attr_swing_modes : Option (List String)
  attr_swing_horizontal_modes : Option (List String)
  attr_preset_mode : Option String
  deriving DecidableEq, Repr

/-- Python truthiness of an optional string (`if self._attr_preset_mode:`). -/
def optStrTruthy : Option String → Bool
  | none => false
  | some s => !s.isEmpty

/-- Python `lst or None` on a list-valued capability. -/
def listOrNone (l : List String) : Option (List String) :=
  if l.isEmpty then none else some l

/-- Python truthiness of an optional list. -/
def optListTruthy : Option (List String) → Bool
  | none => false
  | some l => !l.isEmpty

/-- Constructor `LGEACClimate.__init__`: derive the swing-mode attributes (remapping
horizontal onto the generic swing slot when no vertical modes exist) and
start with no active preset. -/
def LGEACClimate.init (device : AirConditionerDevice) : LGEACClimate :=
  let sm := listOrNone device.vertical_swing_modes
  let shm := listOrNone device.horizontal_swing_modes
  if !optListTruthy sm && optListTruthy shm then
    ⟨device, true, shm, none, none⟩
  else
    ⟨device, false, sm, shm, none⟩

/-- Method `LGEACClimate._available_hvac_modes`: restrict `HVAC_MODE_LOOKUP` to the
device's operating modes, substituting the sentinel entry when the
restriction is empty.  (Memoized in the source; pure here, see
`LGEACClimate`.) -/
def available_hvac_modes (op_modes : List String) : List (String × HVACMode) :=
  let t := HVAC_MODE_LOOKUP.filter (fun p => op_modes.contains p.1)
  if t.isEmpty then [(HVAC_MODE_NONE, HVACMode.auto)] else t

/-- Method `LGEACClimate._available_preset_modes`: vendor code → preset label for
the presets available on this device.  The intermediate `modes` dict is
keyed by preset label (`modes[mode["preset"]] = key`, last write wins) and
then inverted by a dict comprehension.  The source's one-time side effect
(`self._attr_preset_mode = PRESET_NONE` when the table is non-empty, on
first computation) initializes the preset attribute and is not needed by the
read/write paths modelled below, which never call this before testing the
power state. -/
def available_preset_modes (op_modes : List String) : List (String × String) :=
  let hvac_modes := (available_hvac_modes op_modes).map Prod.snd
  let modes := PRESET_MODE_LOOKUP.foldl
    (fun acc km =>
      if !op_modes.contains km.1 then acc
      else if !hvac_modes.contains km.2.2 then acc
      else dinsert acc km.2.1 km.1)
    []
  dictOfPairs (modes.map Prod.swap)

/-- Property `LGEACClimate.preset_modes`. -/
def preset_modes (a : LGEACClimate) : Option (List String) :=
  let modes := available_preset_modes a.device.op_modes
  if modes.isEmpty then none
  else some (PRESET_NONE :: modes.map Prod.snd)

/-- Property `LGEACClimate.hvac_mode`: the returned mode together with the
entity state after the property's side effect on `_attr_preset_mode`.
The `PRESET_MODE_LOOKUP[op_mode]` index cannot fail (the preset table's keys
are keys of `PRESET_MODE_LOOKUP`), so its `getD` default is unreachable. -/
def hvac_mode (a : LGEACClimate) (st : ACState) : HVACMode × LGEACClimate :=
  let reset :=
    if optStrTruthy a.attr_preset_mode then
      { a with attr_preset_mode := some PRESET_NONE }
    else a
  match st.operation_mode with
  | none => (HVACMode.off, reset)
  | some op_mode =>
    if !st.is_on then (HVACMode.off, reset)
    else
      let presets := available_preset_modes a.device.op_modes
      match dlookup presets op_mode with
      | some preset =>
          (((dlookup PRESET_MODE_LOOKUP op_mode).map (fun m => m.2)).getD
             HVACMode.auto,
           { a with attr_preset_mode := some preset })
      | none =>
          let modes := available_hvac_modes a.device.op_modes
          ((dlookup modes op_mode).getD HVACMode.auto, reset)

/-- A command issued to the device/session layer. -/
inductive Command : Type
  | power (state : Bool)
  | set_op_mode (code : String)
  | set_vertical_swing_mode (mode : String)
  | set_horizontal_swing_mode (mode : String)
  deriving DecidableEq, Repr

/-- An exception raised by a command method. -/
inductive PyError : Type
  | valueError (msg : String)
  | notImplementedError
  | keyError
  deriving DecidableEq, Repr

/-- Outcome of running a command method: the device commands issued before
returning or raising, whether `self._api.async_set_updated()` was called,
and the exception raised, if any. -/
structure RunResult : Type where
  commands : List Command
  markedUpdated : Bool
  error : Option PyError
  deriving DecidableEq, Repr

/-- Method `LGEACClimate.async_set_hvac_mode`. -/
def async_set_hvac_mode (a : LGEACClimate) (st : ACState) (m : HVACMode) :
    RunResult :=
  if m = HVACMode.off then ⟨[Command.power false], true, none⟩
  else
    let modes := available_hvac_modes a.device.op_modes
    let reverse_lookup := dictOfPairs (modes.map Prod.swap)
    match dlookup reverse_lookup m with
    | none =>
        ⟨[], false,
         some (PyError.valueError ("Invalid hvac_mode [" ++ m.value ++ "]"))⟩
    | some operation_mode =>
        ⟨(if !st.is_on then [Command.power true] else [])
           ++ (if operation_mode ≠ HVAC_MODE_NONE then
                 [Command.set_op_mode operation_mode]
               else []),
         true, none⟩

/-- Method `LGEACClimate.async_set_preset_mode`.  A `None` current preset compared
against `PRESET_NONE` is unequal (Python `None != "none"`), and indexing
`reverse_lookup` with a key that is absent (or `None`) raises `KeyError`. -/
def async_set_preset_mode (a : LGEACClimate) (st : ACState)
    (preset_mode : String) : RunResult :=
  let modes := available_preset_modes a.device.op_modes
  if modes.isEmpty then ⟨[], false, some PyError.notImplementedError⟩
  else
    let reverse_lookup := dictOfPairs (modes.map Prod.swap)
    if preset_mode = PRESET_NONE then
      let curr_preset := a.attr_preset_mode
      if curr_preset ≠ some PRESET_NONE ∧ st.is_on then
        match curr_preset.bind (fun c => dlookup reverse_lookup c) with
        | none => ⟨[], false, some PyError.keyError⟩
        | some op_mode =>
            async_set_hvac_mode a st
              (((dlookup PRESET_MODE_LOOKUP op_mode).map (fun e => e.2)).getD
                 HVACMode.auto)
      else ⟨[], false, none⟩
    else
      match dlookup reverse_lookup preset_mode with
      | none =>
          ⟨[], false,
           some (PyError.valueError
             ("Invalid preset_mode [" ++ preset_mode ++ "]"))⟩
      | some operation_mode =>
          ⟨(if !st.is_on then [Command.power true] else [])
             ++ [Command.set_op_mode operation_mode],
           true, none⟩

/-- Property `LGEACClimate.swing_mode`. -/
def swing_mode (a : LGEACClimate) (st : ACState) : Option String :=
  if a.use_h_mode then st.horizontal_swing_mode else st.vertical_swing_mode

/-- Property `LGEACClimate.swing_horizontal_mode`. -/
def swing_horizontal_mode (st : ACState) : Option String :=
  st.horizontal_swing_mode

/-- Method `LGEACClimate.async_set_swing_mode`; `self.swing_modes or []` turns a
`None` attribute into the empty list for the membership check. -/
def async_set_swing_mode (a : LGEACClimate) (st : ACState)
    (sm : String) : RunResult :=
  if !(a.attr_swing_modes.getD []).contains sm then
    ⟨[], false,
     some (PyError.valueError ("Invalid swing_mode [" ++ sm ++ "]."))⟩
  else if swing_mode a st ≠ some sm then
    if a.use_h_mode then
      ⟨[Command.set_horizontal_swing_mode sm], true, none⟩
    else
      ⟨[Command.set_vertical_swing_mode sm], true, none⟩
  else ⟨[], false, none⟩

/-- Method `LGEACClimate.async_set_swing_horizontal_mode`. -/
def async_set_swing_horizontal_mode (a : LGEACClimate) (st : ACState)
    (shm : String) : RunResult :=
  if !(a.attr_swing_horizontal_modes.getD []).contains shm then
    ⟨[], false,
     some (PyError.valueError
       ("Invalid horizontal swing_mode [" ++ shm ++ "]."))⟩
  else if swing_horizontal_mode st ≠ some shm then
    ⟨[Command.set_horizontal_swing_mode shm], true, none⟩
  else ⟨[], false, none⟩

/-- Modelled from the spec: the refrigerator compartment descriptor's
temperature accessor (`temp_fn`, bound to `LGERefrigeratorDevice.temp_fridge`
or `.temp_freezer` in `device_helpers.py`, which is outside this module)
yields a numeric reading, a textual status string, or no value when the
underlying read fails. -/
inductive RefTempReading : Type
  | numeric (q : ℚ)
  | text (s : String)
  | missing
  deriving DecidableEq, Repr

/-- Python `int(x)` on a float: truncation toward zero. -/
def pyTrunc (q : ℚ) : ℤ := Int.tdiv q.num q.den

/-- Value of a non-empty all-digit character run, most significant first;
`none` as soon as a non-digit appears. -/
def digitsValAux : List Char → Nat → Option Nat
  | [], acc => some acc
  | c :: ds, acc =>
      if c.isDigit then digitsValAux ds (acc * 10 + (c.toNat - 48))
      else none

/-- Helper `digitsVal l`: the numeric value of a non-empty digit string, `none`
for the empty list or any non-digit character. -/
def digitsVal : List Char → Option Nat
  | [] => none
  | c :: ds => digitsValAux (c :: ds) 0

/-- Python `int(s)` on a string: an optional sign followed by at least one
decimal digit gives the signed value; every other string (modulo the
whitespace and underscore forms Python also tolerates, not modelled here)
raises `ValueError`, modelled as `none`. -/
def pyIntOfString (s : String) : Option Int :=
  match s.data with
  | '-' :: ds => (digitsVal ds).map (fun n => -(n : Int))
  | '+' :: ds => (digitsVal ds).map (fun n => (n : Int))
  | ds => (digitsVal ds).map (fun n => (n : Int))

/-- Property `LGERefrigeratorClimate.target_temperature`: `int(target_temp)` on a
numeric value truncates toward zero and cannot raise; on a string it raises
`ValueError` unless the string is an integer literal, which the property
catches and turns into `None`. -/
def ref_target_temperature (reading : RefTempReading) : Option ℤ :=
  match reading with
  | .missing => none
  | .numeric q => some (pyTrunc q)
  | .text s => pyIntOfString s

theorem available_hvac_modes_eq (S : List String) :
    available_hvac_modes S =
      (if HVAC_MODE_LOOKUP.filter (fun p => S.contains p.1) = [] then
        [(HVAC_MODE_NONE, HVACMode.auto)]
      else HVAC_MODE_LOOKUP.filter (fun p => S.contains p.1)) := by
  show (if (HVAC_MODE_LOOKUP.filter (fun p => S.contains p.1)).isEmpty = true
        then [(HVAC_MODE_NONE, HVACMode.auto)]
        else HVAC_MODE_LOOKUP.filter (fun p => S.contains p.1)) = _
  by_cases h : HVAC_MODE_LOOKUP.filter (fun p => S.contains p.1) = []
  · rw [if_pos (List.isEmpty_iff.mpr h), if_pos h]
  · rw [if_neg (fun hc => h (List.isEmpty_iff.mp hc)), if_neg h]

theorem hvac_lookup_value_ne_off :
    ∀ p ∈ HVAC_MODE_LOOKUP, p.2 ≠ HVACMode.off := by decide

theorem hvac_lookup_key_ne_sentinel :
    ∀ p ∈ HVAC_MODE_LOOKUP, p.1 ≠ HVAC_MODE_NONE := by decide

theorem hvac_lookup_key_ne_preset_code :
    ∀ p ∈ HVAC_MODE_LOOKUP, p.1 ≠ "ENERGY_SAVING" ∧ p.1 ≠ "ENERGY_SAVER" := by
  decide

theorem hvac_lookup_keys_nodup : (HVAC_MODE_LOOKUP.map Prod.fst).Nodup := by
  decide

theorem mem_available_hvac_modes {S : List String} {p : String × HVACMode}
    (h : p ∈ available_hvac_modes S) :
    (p ∈ HVAC_MODE_LOOKUP ∧ S.contains p.1 = true) ∨
      p = (HVAC_MODE_NONE, HVACMode.auto) := by
  rw [available_hvac_modes_eq] at h
  split at h
  · right; simpa using h
  · left
    exact ⟨(List.mem_filter.mp h).1, (List.mem_filter.mp h).2⟩

theorem available_hvac_modes_keys_nodup (S : List String) :
    ((available_hvac_modes S).map Prod.fst).Nodup := by
  rw [available_hvac_modes_eq]
  split
  · simp
  · exact (((List.filter_sublist _).map Prod.fst).nodup) hvac_lookup_keys_nodup

theorem available_preset_modes_eq (S : List String) :
    available_preset_modes S =
      (if "ENERGY_SAVER" ∈ S ∧
          HVACMode.cool ∈ (available_hvac_modes S).map Prod.snd then
        [("ENERGY_SAVER", PRESET_ECO)]
      else if "ENERGY_SAVING" ∈ S ∧
          HVACMode.cool ∈ (available_hvac_modes S).map Prod.snd then
        [("ENERGY_SAVING", PRESET_ECO)]
      else []) := by
  by_cases h1 : "ENERGY_SAVING" ∈ S <;>
  by_cases h2 : HVACMode.cool ∈ (available_hvac_modes S).map Prod.snd <;>
  by_cases h3 : "ENERGY_SAVER" ∈ S <;>
  simp [available_preset_modes, PRESET_MODE_LOOKUP, dictOfPairs, dinsert,
    dlookup, PRESET_ECO, h1, h2, h3]

/-- C1: for every device operating-mode set `S`, the derived HVAC-mode table
returned by `_available_hvac_modes` is non-empty; it equals the restriction
of the global `HVAC_MODE_LOOKUP` to keys in `S` when that restriction is
non-empty, and equals exactly the singleton `{HVAC_MODE_NONE: AUTO}` when
`S` shares no key with `HVAC_MODE_LOOKUP`. -/
theorem ac_available_hvac_modes_spec (S : List String) :
    available_hvac_modes S ≠ [] ∧
    (HVAC_MODE_LOOKUP.filter (fun p => S.contains p.1) ≠ [] →
      available_hvac_modes S =
        HVAC_MODE_LOOKUP.filter (fun p => S.contains p.1)) ∧
    ((∀ p ∈ HVAC_MODE_LOOKUP, S.contains p.1 = false) →
      available_hvac_modes S = [(HVAC_MODE_NONE, HVACMode.auto)]) := by
  refine ⟨?_, ?_, ?_⟩
  · rw [available_hvac_modes_eq]
    split
    · simp
    · rename_i h; exact h
  · intro h
    rw [available_hvac_modes_eq, if_neg h]
  · intro h
    rw [available_hvac_modes_eq, if_pos]
    rw [List.filter_eq_nil_iff]
    intro p hp
    simpa using h p hp

/-- Witness for `ac_available_hvac_modes_spec` at a mode set disjoint from
the global table. -/
theorem ac_available_hvac_modes_spec_witness :
    available_hvac_modes ["FOO"] = [(HVAC_MODE_NONE, HVACMode.auto)] :=
  (ac_available_hvac_modes_spec ["FOO"]).2.2 (by decide)

/-- C2: every vendor code in the table returned by
`_available_preset_modes` is one of the device's operating modes, and its
associated HVAC mode per `PRESET_MODE_LOOKUP` is among the values of the
derived HVAC table; when both vendor codes producing the `eco` preset label
are available, the later entry (`ENERGY_SAVER`) overwrites the earlier one
(last-write-wins, no error). -/
theorem ac_available_preset_modes_spec (S : List String) :
    (∀ code preset,
      dlookup (available_preset_modes S) code = some preset →
      S.contains code = true ∧
      ∃ e, dlookup PRESET_MODE_LOOKUP code = some e ∧
        ((available_hvac_modes S).map Prod.snd).contains e.2 = true) ∧
    (S.contains "ENERGY_SAVING" = true →
     S.contains "ENERGY_SAVER" = true →
     ((available_hvac_modes S).map Prod.snd).contains HVACMode.cool = true →
      dlookup (available_preset_modes S) "ENERGY_SAVER" = some PRESET_ECO ∧
      dlookup (available_preset_modes S) "ENERGY_SAVING" = none) := by
  rw [available_preset_modes_eq]
  constructor
  · intro code preset h
    split at h
    · rename_i hc
      rw [show dlookup [("ENERGY_SAVER", PRESET_ECO)] code
            = if "ENERGY_SAVER" = code then some PRESET_ECO else none from rfl]
          at h
      split at h
      · rename_i he
        subst he
        exact ⟨by simpa using hc.1,
          ("eco", HVACMode.cool), rfl, by simpa using hc.2⟩
      · cases h
    · split at h
      · rename_i hc2
        rw [show dlookup [("ENERGY_SAVING", PRESET_ECO)] code
              = if "ENERGY_SAVING" = code then some PRESET_ECO else none
              from rfl] at h
        split at h
        · rename_i he
          subst he
          exact ⟨by simpa using hc2.1,
            ("eco", HVACMode.cool), rfl, by simpa using hc2.2⟩
        · cases h
      · cases h
  · intro h1 h2 h3
    rw [if_pos ⟨by simpa using h2, by simpa using h3⟩]
    exact ⟨by simp [dlookup], by simp [dlookup]⟩

/-- Witness for `ac_available_preset_modes_spec`: a device supporting both
energy-saving codes and `COOL`. -/
theorem ac_available_preset_modes_spec_witness :
    dlookup (available_preset_modes ["COOL", "ENERGY_SAVING", "ENERGY_SAVER"])
        "ENERGY_SAVER" = some PRESET_ECO ∧
    dlookup (available_preset_modes ["COOL", "ENERGY_SAVING", "ENERGY_SAVER"])
        "ENERGY_SAVING" = none :=
  (ac_available_preset_modes_spec ["COOL", "ENERGY_SAVING", "ENERGY_SAVER"]).2
    (by decide) (by decide) (by decide)

/-- C4 counterexample: with no preset support the prior value of
`_attr_preset_mode` is `None` (falsy), and reading `hvac_mode` on a
powered-off device leaves it `None` instead of resetting it to the
`"none"` preset, refuting "reset to the none preset regardless of its
prior value". -/
theorem ac_hvac_mode_off_preset_counterexample :
    (hvac_mode ⟨⟨[], [], [], []⟩, false, none, none, none⟩
        ⟨false, none, none, none⟩).1 = HVACMode.off ∧
    ¬ ((hvac_mode ⟨⟨[], [], [], []⟩, false, none, none, none⟩
        ⟨false, none, none, none⟩).2.attr_preset_mode = some PRESET_NONE) := by
  decide

/-- C4 (amended): if the device snapshot reports `is_on = False` or no
operating mode, `hvac_mode` returns `OFF`; the active-preset attribute is
reset to the `"none"` preset when it held a (truthy) preset label, and is
left unchanged otherwise. -/
theorem ac_hvac_mode_off_resets_active_preset (a : LGEACClimate)
    (st : ACState) (h : st.is_on = false ∨ st.operation_mode = none) :
    (hvac_mode a st).1 = HVACMode.off ∧
    (hvac_mode a st).2.attr_preset_mode =
      (if optStrTruthy a.attr_preset_mode then some PRESET_NONE
       else a.attr_preset_mode) := by
  rcases h with h | h
  all_goals cases hop : st.operation_mode <;>
    simp_all [hvac_mode] <;> split <;> simp

/-- Witness for `ac_hvac_mode_off_resets_active_preset`: an active `eco`
preset is wiped when the device reports off. -/
theorem ac_hvac_mode_off_resets_active_preset_witness :
    (hvac_mode ⟨⟨["COOL"], [], [], []⟩, false, none, none, some "eco"⟩
        ⟨false, none, none, none⟩).1 = HVACMode.off ∧
    (hvac_mode ⟨⟨["COOL"], [], [], []⟩, false, none, none, some "eco"⟩
        ⟨false, none, none, none⟩).2.attr_preset_mode =
      (if optStrTruthy (some "eco") then some PRESET_NONE
       else some "eco") :=
  ac_hvac_mode_off_resets_active_preset _ _ (Or.inl rfl)

/-- C5: `async_set_hvac_mode(OFF)` issues exactly one power-off command and
no set-operating-mode or power-on command, in every adapter state; it marks
the coordinator updated and raises nothing. -/
theorem ac_set_hvac_mode_off_powers_off (a : LGEACClimate) (st : ACState) :
    async_set_hvac_mode a st HVACMode.off =
      ⟨[Command.power false], true, none⟩ := rfl

/-- C6: a non-`OFF` HVAC mode absent from the reverse lookup of the derived
table fails with a `ValueError` naming the requested value, with no device
command issued and the coordinator not marked updated. -/
theorem ac_set_hvac_mode_invalid_value (a : LGEACClimate) (st : ACState)
    (m : HVACMode) (h1 : m ≠ HVACMode.off)
    (h2 : dlookup (dictOfPairs
        ((available_hvac_modes a.device.op_modes).map Prod.swap)) m = none) :
    async_set_hvac_mode a st m =
      ⟨[], false,
       some (PyError.valueError ("Invalid hvac_mode [" ++ m.value ++ "]"))⟩
    := by
  unfold async_set_hvac_mode
  rw [if_neg h1]
  simp only [h2]

/-- Witness for `ac_set_hvac_mode_invalid_value`: requesting `HEAT` on a
cool-only device. -/
theorem ac_set_hvac_mode_invalid_value_witness :
    async_set_hvac_mode (LGEACClimate.init ⟨["COOL"], [], [], []⟩)
        ⟨true, some "COOL", none, none⟩ HVACMode.heat =
      ⟨[], false,
       some (PyError.valueError "Invalid hvac_mode [heat]")⟩ :=
  ac_set_hvac_mode_invalid_value _ _ _ (by decide) (by decide)

/-- C7: when the requested mode is in the adapter's swing-mode list and
equals the current swing mode read from the snapshot,
`async_set_swing_mode` issues no device command and does not mark the
coordinator updated; the same holds for `async_set_swing_horizontal_mode`
against the horizontal list and state. -/
theorem ac_set_swing_mode_idempotent (a : LGEACClimate) (st : ACState)
    (v : String) :
    ((a.attr_swing_modes.getD []).contains v = true →
      swing_mode a st = some v →
      async_set_swing_mode a st v = ⟨[], false, none⟩) ∧
    ((a.attr_swing_horizontal_modes.getD []).contains v = true →
      swing_horizontal_mode st = some v →
      async_set_swing_horizontal_mode a st v = ⟨[], false, none⟩) := by
  constructor
  · intro h1 h2
    unfold async_set_swing_mode
    rw [h1, h2]
    simp
  · intro h1 h2
    unfold async_set_swing_horizontal_mode
    rw [h1, h2]
    simp

/-- Witness for `ac_set_swing_mode_idempotent` on both axes. -/
theorem ac_set_swing_mode_idempotent_witness :
    async_set_swing_mode (LGEACClimate.init ⟨[], [], ["UP"], ["LEFT"]⟩)
        ⟨true, none, some "UP", some "LEFT"⟩ "UP" = ⟨[], false, none⟩ ∧
    async_set_swing_horizontal_mode
        (LGEACClimate.init ⟨[], [], ["UP"], ["LEFT"]⟩)
        ⟨true, none, some "UP", some "LEFT"⟩ "LEFT" = ⟨[], false, none⟩ :=
  ⟨(ac_set_swing_mode_idempotent (LGEACClimate.init ⟨[], [], ["UP"], ["LEFT"]⟩)
      ⟨true, none, some "UP", some "LEFT"⟩ "UP").1 (by decide) (by decide),
   (ac_set_swing_mode_idempotent (LGEACClimate.init ⟨[], [], ["UP"], ["LEFT"]⟩)
      ⟨true, none, some "UP", some "LEFT"⟩ "LEFT").2 (by decide) (by decide)⟩

/-- C8: the refrigerator-compartment `target_temperature` truncates a
numeric accessor value toward zero (floor for non-negative values, ceiling
for non-positive ones); a failed read or a non-numeric string yields the
platform's unknown value `None`, and the function is total, so no exception
reaches the caller. -/
theorem ref_target_temperature_spec :
    (∀ q : ℚ, 0 ≤ q →
      ref_target_temperature (RefTempReading.numeric q) = some ⌊q⌋) ∧
    (∀ q : ℚ, q ≤ 0 →
      ref_target_temperature (RefTempReading.numeric q) = some ⌈q⌉) ∧
    ref_target_temperature RefTempReading.missing = none ∧
    (∀ s : String, pyIntOfString s = none →
      ref_target_temperature (RefTempReading.text s) = none) := by
  have htr : ∀ q : ℚ, 0 ≤ q → pyTrunc q = ⌊q⌋ := by
    intro q hq
    rw [pyTrunc, Int.tdiv_eq_ediv (Rat.num_nonneg.mpr hq) (by positivity),
      Rat.floor_def]
  refine ⟨fun q hq => by rw [ref_target_temperature, htr q hq], ?_, rfl,
    fun s hs => by rw [ref_target_temperature, hs]⟩
  intro q hq
  have h1 : pyTrunc q = -pyTrunc (-q) := by
    rw [pyTrunc, pyTrunc, Rat.num_neg_eq_neg_num, Rat.den_neg_eq_den,
      Int.neg_tdiv, neg_neg]
  rw [ref_target_temperature, h1, htr (-q) (by linarith),
    ← Int.ceil_neg, neg_neg]

/-- Witness for `ref_target_temperature_spec`: `3.5` truncates to `3`,
`-3.5` to `-3`, and a textual reading degrades to unknown. -/
theorem ref_target_temperature_spec_witness :
    ref_target_temperature (RefTempReading.numeric (7 / 2)) = some ⌊(7 / 2 : ℚ)⌋ ∧
    ref_target_temperature (RefTempReading.numeric (-7 / 2)) = some ⌈(-7 / 2 : ℚ)⌉ ∧
    ref_target_temperature (RefTempReading.text "no_temp") = none :=
  ⟨ref_target_temperature_spec.1 (7 / 2) (by norm_num),
   ref_target_temperature_spec.2.1 (-7 / 2) (by norm_num),
   ref_target_temperature_spec.2.2.2 "no_temp" (by decide)⟩

/-- C9: a device exposing horizontal swing modes but no vertical ones is
remapped onto the generic swing slot: `swing_modes` holds the horizontal
mode list, `swing_horizontal_modes` is `None`, and the `swing_mode` getter
reads the snapshot's horizontal swing state. -/
theorem ac_horizontal_only_swing_remap (device : AirConditionerDevice)
    (h1 : device.vertical_swing_modes = [])
    (h2 : device.horizontal_swing_modes ≠ []) :
    (LGEACClimate.init device).attr_swing_modes =
      some device.horizontal_swing_modes ∧
    (LGEACClimate.init device).attr_swing_horizontal_modes = none ∧
    (∀ st : ACState,
      swing_mode (LGEACClimate.init device) st = st.horizontal_swing_mode)
    := by
  have he : device.horizontal_swing_modes.isEmpty = false := by
    cases hd : device.horizontal_swing_modes with
    | nil => exact absurd hd h2
    | cons x xs => rfl
  unfold LGEACClimate.init listOrNone optListTruthy
  simp [h1, he, swing_mode]

/-- Witness for `ac_horizontal_only_swing_remap` on the spec's scenario
device (`["LEFT","RIGHT"]` horizontal, no vertical). -/
theorem ac_horizontal_only_swing_remap_witness :
    (LGEACClimate.init ⟨[], [], [], ["LEFT", "RIGHT"]⟩).attr_swing_modes =
      some ["LEFT", "RIGHT"] ∧
    (LGEACClimate.init ⟨[], [], [], ["LEFT", "RIGHT"]⟩).attr_swing_horizontal_modes
      = none ∧
    (∀ st : ACState,
      swing_mode (LGEACClimate.init ⟨[], [], [], ["LEFT", "RIGHT"]⟩) st =
        st.horizontal_swing_mode) :=
  ac_horizontal_only_swing_remap ⟨[], [], [], ["LEFT", "RIGHT"]⟩ rfl
    (by decide)

/-- C10: with an empty derived preset table, `async_set_preset_mode` raises
`NotImplementedError` for every requested label before issuing any device
command and without marking the coordinator updated, and the
`preset_modes` property is `None` rather than an empty list. -/
theorem ac_set_preset_mode_empty_table (a : LGEACClimate) (st : ACState)
    (p : String) (h : available_preset_modes a.device.op_modes = []) :
    async_set_preset_mode a st p =
      ⟨[], false, some PyError.notImplementedError⟩ ∧
    preset_modes a = none := by
  unfold async_set_preset_mode preset_modes
  rw [h]
  simp

/-- Witness for `ac_set_preset_mode_empty_table`: a device with no matching
preset codes rejects the `"eco"` preset. -/
theorem ac_set_preset_mode_empty_table_witness :
    async_set_preset_mode (LGEACClimate.init ⟨["COOL"], [], [], []⟩)
        ⟨true, some "COOL", none, none⟩ "eco" =
      ⟨[], false, some PyError.notImplementedError⟩ ∧
    preset_modes (LGEACClimate.init ⟨["COOL"], [], [], []⟩) = none :=
  ac_set_preset_mode_empty_table _ _ _ (by decide)

theorem roundtrip_mem {S : List String} {m : HVACMode} {c : String}
    (h : dlookup (dictOfPairs ((available_hvac_modes S).map Prod.swap)) m
      = some c) :
    (c, m) ∈ available_hvac_modes S := by
  have h1 := mem_of_mem_dictOfPairs (mem_of_dlookup_eq_some h)
  rcases List.mem_map.mp h1 with ⟨q, hq, hswap⟩
  obtain ⟨x, y⟩ := q
  simp only [Prod.swap_prod_mk, Prod.mk.injEq] at hswap
  obtain ⟨hy, hx⟩ := hswap
  subst hy
  subst hx
  exact hq

theorem mem_value_ne_off {S : List String} {c : String} {m : HVACMode}
    (h : (c, m) ∈ available_hvac_modes S) : m ≠ HVACMode.off := by
  intro he
  subst he
  rcases mem_available_hvac_modes h with ⟨h1, _⟩ | h1
  · exact hvac_lookup_value_ne_off _ h1 rfl
  · simp at h1

theorem preset_lookup_none_of_mem_hvac {S : List String} {c : String}
    {m : HVACMode} (h : (c, m) ∈ available_hvac_modes S) :
    dlookup (available_preset_modes S) c = none := by
  have hkey : c ≠ "ENERGY_SAVING" ∧ c ≠ "ENERGY_SAVER" := by
    rcases mem_available_hvac_modes h with ⟨h1, _⟩ | h1
    · exact hvac_lookup_key_ne_preset_code _ h1
    · refine ⟨?_, ?_⟩ <;>
      · intro he
        rw [Prod.mk.injEq, he] at h1
        exact absurd h1.1 (by decide)
  cases hp : dlookup (available_preset_modes S) c with
  | none => rfl
  | some p =>
    exfalso
    rw [available_preset_modes_eq] at hp
    split at hp
    · rw [show dlookup [("ENERGY_SAVER", PRESET_ECO)] c
          = if "ENERGY_SAVER" = c then some PRESET_ECO else none from rfl]
        at hp
      split at hp
      · rename_i he; exact hkey.2 he.symm
      · cases hp
    · split at hp
      · rw [show dlookup [("ENERGY_SAVING", PRESET_ECO)] c
            = if "ENERGY_SAVING" = c then some PRESET_ECO else none from rfl]
          at hp
        split at hp
        · rename_i he; exact hkey.1 he.symm
        · cases hp
      · cases hp

theorem sentinel_mem {S : List String} {m : HVACMode}
    (h : (HVAC_MODE_NONE, m) ∈ available_hvac_modes S) :
    available_hvac_modes S = [(HVAC_MODE_NONE, HVACMode.auto)] ∧
      m = HVACMode.auto := by
  have hm : m = HVACMode.auto := by
    rcases mem_available_hvac_modes h with ⟨h1, _⟩ | h1
    · exact absurd rfl (hvac_lookup_key_ne_sentinel _ h1)
    · simpa using h1
  refine ⟨?_, hm⟩
  rw [available_hvac_modes_eq]
  rw [if_pos ?hf]
  case hf =>
    by_contra hne
    rw [available_hvac_modes_eq, if_neg hne] at h
    exact hvac_lookup_key_ne_sentinel _ (List.mem_filter.mp h).1 rfl

theorem preset_modes_empty_of_sentinel {S : List String}
    (h : available_hvac_modes S = [(HVAC_MODE_NONE, HVACMode.auto)]) :
    available_preset_modes S = [] := by
  rw [available_preset_modes_eq, h]
  simp

/-- C3: round trip.  If the reverse lookup of the derived HVAC-mode table
resolves `m` to vendor code `c`, then `async_set_hvac_mode m` succeeds; when
`c` is not the sentinel, a set-operating-mode `c` command is issued and a
snapshot reflecting it (device on, operating mode `c`) makes `hvac_mode`
read back `m`; when `c` is the sentinel, no set-operating-mode command is
issued and a snapshot holding any unrecognized code with the device on
makes `hvac_mode` read back `m`. -/
theorem ac_set_hvac_mode_roundtrip (a : LGEACClimate) (st : ACState)
    (m : HVACMode) (c : String)
    (h : dlookup (dictOfPairs
        ((available_hvac_modes a.device.op_modes).map Prod.swap)) m
      = some c) :
    (async_set_hvac_mode a st m).error = none ∧
    (c ≠ HVAC_MODE_NONE →
      Command.set_op_mode c ∈ (async_set_hvac_mode a st m).commands ∧
      ∀ vm hm, (hvac_mode a ⟨true, some c, vm, hm⟩).1 = m) ∧
    (c = HVAC_MODE_NONE →
      (∀ code,
        Command.set_op_mode code ∉ (async_set_hvac_mode a st m).commands) ∧
      (∀ u vm hm, dlookup (available_hvac_modes a.device.op_modes) u = none →
        (hvac_mode a ⟨true, some u, vm, hm⟩).1 = m)) := by
  have hcm : (c, m) ∈ available_hvac_modes a.device.op_modes := roundtrip_mem h
  have hmoff : m ≠ HVACMode.off := mem_value_ne_off hcm
  have hlook : dlookup (available_hvac_modes a.device.op_modes) c = some m :=
    dlookup_eq_some_of_mem_nodup hcm (available_hvac_modes_keys_nodup _)
  have hrun : async_set_hvac_mode a st m =
      ⟨(if !st.is_on then [Command.power true] else [])
        ++ (if c ≠ HVAC_MODE_NONE then [Command.set_op_mode c] else []),
       true, none⟩ := by
    unfold async_set_hvac_mode
    rw [if_neg hmoff]
    simp only [h]
  refine ⟨by rw [hrun], ?_, ?_⟩
  · intro hcs
    refine ⟨by rw [hrun]; simp [hcs], ?_⟩
    intro vm hm
    simp [hvac_mode, preset_lookup_none_of_mem_hvac hcm, hlook]
  · intro hcs
    subst hcs
    obtain ⟨hsent, hm⟩ := sentinel_mem hcm
    subst hm
    constructor
    · intro code
      rw [hrun]
      cases hon : st.is_on <;> simp [hon]
    · intro u vm hm hu
      simp [hvac_mode, preset_modes_empty_of_sentinel hsent, hu, dlookup]

/-- Witness for `ac_set_hvac_mode_roundtrip`: a cool-only device round
trips `COOL`. -/
theorem ac_set_hvac_mode_roundtrip_witness :
    (hvac_mode (LGEACClimate.init ⟨["COOL"], [], [], []⟩)
        ⟨true, some "COOL", none, none⟩).1 = HVACMode.cool :=
  ((ac_set_hvac_mode_roundtrip (LGEACClimate.init ⟨["COOL"], [], [], []⟩)
        ⟨false, none, none, none⟩ HVACMode.cool "COOL" (by decide)).2.1
      (by decide)).2 none none

end SmartThinQ
